import Mathlib

/-
  Verification of the gosh Cmd module (src/gosh/cmd.go).

  Shallow embedding notes:
  - Go maps from string to string are embedded as functions
    String → Option String (Smap).  Go map assignment m[k] = v is
    functional update; a Go map literal is embedded via List.lookup.
  - Bytes are embedded as Nat; the newline byte is 10.
  - The blocking methods awaitReady / awaitVars are embedded as the
    evaluation of their post-wake logic against a state snapshot taken
    when the condition loop observes its exit condition; the value
    none stands for a call that is still blocked at that state.
  - External effects (the OS spawn result, file-open results for the
    output directory, json.Unmarshal) are parameters of the embedded
    functions, so that every control path of the Go code is reachable
    in the model.
-/

namespace Gosh

/-- Embedding of a Go map from string to string. -/
def Smap : Type := String → Option String

/-- The empty map. -/
def emptySmap : Smap := fun _ => none

/-- Build an Smap from an association list (a Go map literal). -/
def listMap (l : List (String × String)) : Smap := fun k => l.lookup k

/-- Modelled from the spec: mergeMaps (defined outside the examined cmd.go,
in the shell module) starts from an empty result, copies the base map and
then the update map into it, so entries of the update map overwrite entries
of the base map and nothing is deleted. -/
def mergeMaps (base upd : Smap) : Smap :=
  fun k => match upd k with
  | some v => some v
  | none => base k

/-- Modelled from the spec: copyMap (defined outside the examined cmd.go)
returns a value copy of a map; with the functional embedding of maps a
copy is the map itself. -/
def copyMap (m : Smap) : Smap := m

/-- The recognized control message type tag for the ready message
(spec section 6 wire format). -/
def typeReady : String := "ready"

/-- The recognized control message type tag for the variables message
(spec section 6 wire format). -/
def typeVars : String := "vars"

/-- Embedding of the Go msg struct: a decoded control message with a type
tag and a variables payload. -/
structure Msg where
  mtype : String
  mvars : Smap

/-- Modelled from the spec: the fixed literal marker that begins every
control line on stdout.  Its exact bytes are defined outside the examined
cmd.go; we take the three bytes of a hash, a bang and a space.  The claims
depend only on the marker being a fixed nonempty byte string. -/
def msgMark : List Nat := [35, 33, 32]

/-- Embedding of the recvWriter state (the control-message decoder),
together with the shared handshake fields of the owning Cmd that the
decoder mutates (recvReady, recvVars). -/
structure RecvState where
  buf : List Nat
  readMark : Bool
  skipLine : Bool
  recvReady : Bool
  recvVars : Smap

/-- A decoder state at the start of a line, with given shared handshake
state. -/
def freshRecv (ready : Bool) (vars : Smap) : RecvState :=
  { buf := [], readMark := false, skipLine := false,
    recvReady := ready, recvVars := vars }

/-- The error message produced for an unrecognized control message type
tag (Go renders it with fmt.Errorf, quoting the tag). -/
def unknownTypeMsg (t : String) : String :=
  "unknown message type: " ++ t

/-- Embedding of one iteration of the byte loop of recvWriter.Write.
The parameter parse stands for json.Unmarshal into the msg struct:
it returns the decoded message or the unmarshalling error. -/
def writeByte (parse : List Nat → Except String Msg) (s : RecvState)
    (b : Nat) : Except String RecvState :=
  if b = 10 then
    if s.readMark ∧ ¬ s.skipLine then
      match parse s.buf with
      | Except.error e => Except.error e
      | Except.ok m =>
        if m.mtype = typeReady then
          Except.ok { s with recvReady := true,
                             buf := [], readMark := false, skipLine := false }
        else if m.mtype = typeVars then
          Except.ok { s with recvVars := mergeMaps s.recvVars m.mvars,
                             buf := [], readMark := false, skipLine := false }
        else
          Except.error (unknownTypeMsg m.mtype)
    else
      Except.ok { s with buf := [], readMark := false, skipLine := false }
  else if ¬ s.skipLine then
    let buf := s.buf ++ [b]
    if ¬ s.readMark ∧ buf.length = msgMark.length then
      if buf = msgMark then
        Except.ok { s with buf := [], readMark := true }
      else
        Except.ok { s with buf := [], readMark := true, skipLine := true }
    else
      Except.ok { s with buf := buf }
  else
    Except.ok s

/-- Embedding of recvWriter.Write: process each byte of p in order,
stopping at the first error (the Go code returns the error immediately). -/
def recvWrite (parse : List Nat → Except String Msg) (s : RecvState) :
    List Nat → Except String RecvState
  | [] => Except.ok s
  | b :: rest =>
    match writeByte parse s b with
    | Except.error e => Except.error e
    | Except.ok s2 => recvWrite parse s2 rest

/-- Identity of a writer or closer registered on a Cmd.  Distinct
constructors stand for distinct object identities: the single recvWriter
of the Cmd, the inherited os.Stdout and os.Stderr of the parent, the two
output-directory files (named by a timestamp), buffered pipes from
StdoutPipe or StderrPipe, and caller-supplied WriteClosers (identified by
a number). -/
inductive WriterId where
  | recvW : WriterId
  | stdoutW : WriterId
  | stderrW : WriterId
  | fileOut : String → WriterId
  | fileErr : String → WriterId
  | bufPipe : Nat → WriterId
  | user : Nat → WriterId
deriving DecidableEq

/-- Embedding of the Cmd struct fields (public configuration and internal
state).  The underlying exec.Cmd and the OS process are external; the
parts of their behavior the claims need are parameters of the operations. -/
structure Cmd where
  path : String
  vars : Smap
  args : List String
  ignoreParentExit : Bool
  exitAfter : Nat
  propagateOutput : Bool
  outputDir : String
  exitErrorIsOk : Bool
  stdin : String
  stdinWriteCloser : Option Nat
  calledStart : Bool
  calledWait : Bool
  started : Bool
  exited : Bool
  stdoutWriters : List WriterId
  stderrWriters : List WriterId
  closers : List WriterId
  recvReady : Bool
  recvVars : Smap

/-- The part of the Shell state a Cmd operation consults: whether the
signal-triggered mass cleanup has begun (checked under the shared
cleanup lock). -/
structure Shell where
  calledCleanup : Bool

/-- Error values of cmd.go (error messages as strings). -/
def errAlreadyCalledStart : String := "gosh: already called Cmd.Start"

/-- Error value for calling Cmd.Wait twice. -/
def errAlreadyCalledWait : String := "gosh: already called Cmd.Wait"

/-- Error value for an operation that requires a started command. -/
def errDidNotCallStart : String := "gosh: did not call Cmd.Start"

/-- Error value for an await that ended because the process exited. -/
def errProcessExited : String := "gosh: process exited"

/-- Modelled from the spec: the shell error for operations after the
supervisor began mass cleanup (defined outside the examined cmd.go). -/
def errAlreadyCalledCleanup : String := "gosh: already called Shell.Cleanup"

/-- Error value raised by start when both a literal Stdin string and a
stdin pipe were configured. -/
def errConflictingStdin : String := "gosh: cannot both set Stdin and call StdinPipe"

/-- The Go error message of signaling a process that already finished. -/
def errFinished : String := "os: process already finished"

/-- Embedding of newCmdInternal: a fresh Cmd in its initial configuring
state, registered with the shell unless mass cleanup already began. -/
def newCmdInternal (sh : Shell) (vars : Smap) (path : String)
    (args : List String) : Except String Cmd :=
  if sh.calledCleanup then Except.error errAlreadyCalledCleanup
  else Except.ok
    { path := path
      vars := vars
      args := path :: args
      ignoreParentExit := false
      exitAfter := 0
      propagateOutput := false
      outputDir := ""
      exitErrorIsOk := false
      stdin := ""
      stdinWriteCloser := none
      calledStart := false
      calledWait := false
      started := false
      exited := false
      stdoutWriters := []
      stderrWriters := []
      closers := []
      recvReady := false
      recvVars := emptySmap }

/-- Embedding of Cmd.clone: a fresh Cmd built from a copy of this
path, argument tail and environment of this command, then given the scalar
configuration fields, including the Stdin string (line 418 of cmd.go). -/
def clone (c : Cmd) (sh : Shell) : Except String Cmd :=
  match newCmdInternal sh (copyMap c.vars) c.path (c.args.drop 1) with
  | Except.error e => Except.error e
  | Except.ok res => Except.ok
    { res with
      ignoreParentExit := c.ignoreParentExit
      exitAfter := c.exitAfter
      propagateOutput := c.propagateOutput
      outputDir := c.outputDir
      exitErrorIsOk := c.exitErrorIsOk
      stdin := c.stdin }

/-- Embedding of Cmd.stdinPipe.  The parameter fresh is the identity of
the pipe exec.Cmd.StdinPipe would create on this call (before start, on a
fresh exec.Cmd, that call succeeds). -/
def stdinPipe (c : Cmd) (fresh : Nat) : Except String (Nat × Cmd) :=
  if c.calledStart then Except.error errAlreadyCalledStart
  else
    match c.stdinWriteCloser with
    | some w => Except.ok (w, c)
    | none => Except.ok (fresh, { c with stdinWriteCloser := some fresh })

/-- Embedding of Cmd.isRunning (the lock around exited is immaterial in
the sequential snapshot model). -/
def isRunning (c : Cmd) : Bool := c.started && !c.exited

/-- Helper for closeClosers: walk the closer list, closing each closer
whose identity was not seen before; returns the sequence of Close calls
made. -/
def closeClosersAux : List WriterId → List WriterId → List WriterId
  | _, [] => []
  | seen, w :: rest =>
    if w ∈ seen then closeClosersAux seen rest
    else w :: closeClosersAux (w :: seen) rest

/-- Embedding of Cmd.closeClosers: close every registered closer, but
only once per distinct identity (the Go code tracks identities in a map
keyed by the io.Closer interface value).  The result is the sequence of
Close calls made. -/
def closeClosers (closers : List WriterId) : List WriterId :=
  closeClosersAux [] closers

/-- Number of occurrences of an identity in a list of Close calls. -/
def countOcc (x : WriterId) : List WriterId → Nat
  | [] => 0
  | w :: rest => (if w = x then 1 else 0) + countOcc x rest

/-- The shape of the writers makeStdoutStderr hands to exec.Cmd: nothing,
one multiwriter on a single stream, or the two multiwriters wrapped in
the single shared mutual-exclusion lock. -/
inductive OutWriters where
  | none2 : OutWriters
  | outOnly : List WriterId → OutWriters
  | errOnly : List WriterId → OutWriters
  | locked : List WriterId → List WriterId → OutWriters

/-- The final switch of makeStdoutStderr over which writer lists are
nonempty. -/
def outSwitch (c : Cmd) : OutWriters :=
  if c.stdoutWriters ≠ [] ∧ c.stderrWriters ≠ [] then
    OutWriters.locked c.stdoutWriters c.stderrWriters
  else if c.stdoutWriters ≠ [] then OutWriters.outOnly c.stdoutWriters
  else if c.stderrWriters ≠ [] then OutWriters.errOnly c.stderrWriters
  else OutWriters.none2

/-- Embedding of Cmd.makeStdoutStderr.  The recvWriter is always appended
to the stdout writers first; then the parent streams if propagation is
enabled; then the output-directory files, whose exclusive creation can
fail (openOut, openErr say whether each os.OpenFile call succeeds, and t
is the timestamp in the file names).  Returns the resulting writers and
the mutated Cmd; on a file-open error the writers and closers appended so
far remain registered, as in the Go code. -/
def makeStdoutStderr (c : Cmd) (t : String) (openOut openErr : Bool) :
    Except String OutWriters × Cmd :=
  let c1 := { c with stdoutWriters := c.stdoutWriters ++ [WriterId.recvW] }
  let c2 :=
    if c1.propagateOutput then
      { c1 with stdoutWriters := c1.stdoutWriters ++ [WriterId.stdoutW],
                stderrWriters := c1.stderrWriters ++ [WriterId.stderrW] }
    else c1
  if c2.outputDir = "" then (Except.ok (outSwitch c2), c2)
  else if ¬ openOut then (Except.error "open stdout file failed", c2)
  else
    let c3 := { c2 with stdoutWriters := c2.stdoutWriters ++ [WriterId.fileOut t],
                        closers := c2.closers ++ [WriterId.fileOut t] }
    if ¬ openErr then (Except.error "open stderr file failed", c3)
    else
      let c4 := { c3 with stderrWriters := c3.stderrWriters ++ [WriterId.fileErr t],
                          closers := c3.closers ++ [WriterId.fileErr t] }
      (Except.ok (outSwitch c4), c4)

/-- The body of Cmd.start (everything except the deferred cleanup).
External results are parameters: t, openOut, openErr feed
makeStdoutStderr, and spawnErr is the result of exec.Cmd.Start (none on
success).  Returns the call result and the mutated Cmd. -/
def startBody (c : Cmd) (sh : Shell) (t : String) (openOut openErr : Bool)
    (spawnErr : Option String) : Except String Unit × Cmd :=
  if c.calledStart then (Except.error errAlreadyCalledStart, c)
  else
    let c1 := { c with calledStart := true }
    if sh.calledCleanup then (Except.error errAlreadyCalledCleanup, c1)
    else if c1.stdin ≠ "" ∧ c1.stdinWriteCloser.isSome then
      (Except.error errConflictingStdin, c1)
    else
      match makeStdoutStderr c1 t openOut openErr with
      | (Except.error e, c2) => (Except.error e, c2)
      | (Except.ok _, c2) =>
        match spawnErr with
        | some e => (Except.error e, c2)
        | none => (Except.ok (), { c2 with started := true })

/-- Embedding of Cmd.start with its deferred cleanup: if after the body
the command is not started, every registered closer is closed.  The third
component is the sequence of Close calls the deferred cleanup made. -/
def start (c : Cmd) (sh : Shell) (t : String) (openOut openErr : Bool)
    (spawnErr : Option String) : Except String Unit × Cmd × List WriterId :=
  match startBody c sh t openOut openErr spawnErr with
  | (res, c2) =>
    if ¬ c2.started then (res, c2, closeClosers c2.closers)
    else (res, c2, [])

/-- Embedding of Cmd.awaitReady, evaluated against a snapshot of the
shared state at the moment the condition loop observes its exit
condition.  The value none means the call is still blocked at this
state (the loop condition holds and the call has not returned). -/
def awaitReady (c : Cmd) : Option (Except String Unit) :=
  if ¬ c.started then some (Except.error errDidNotCallStart)
  else if c.calledWait then some (Except.error errAlreadyCalledWait)
  else if ¬ c.exited ∧ ¬ c.recvReady then none
  else if ¬ c.recvReady then some (Except.error errProcessExited)
  else some (Except.ok ())

/-- The restriction of the accumulated variables to the requested keys:
the value of the res map of awaitVars after its final updateRes call
(recvVars never deletes keys, so the final updateRes determines res). -/
def satisfiedVars (vars : Smap) (keys : List String) : Smap :=
  fun k => if k ∈ keys then vars k else none

/-- Whether every requested key is present in the accumulated variables;
this is the len(res) == len(wantKeys) comparison of awaitVars, since res
holds exactly the requested keys that are present in recvVars. -/
def allKeysPresent (vars : Smap) (keys : List String) : Bool :=
  keys.all (fun k => (vars k).isSome)

/-- Embedding of Cmd.awaitVars, evaluated against a snapshot of the
shared state at the moment the condition loop observes its exit
condition; none means the call is still blocked at this state. -/
def awaitVars (c : Cmd) (keys : List String) :
    Option (Except String Smap) :=
  if ¬ c.started then some (Except.error errDidNotCallStart)
  else if c.calledWait then some (Except.error errAlreadyCalledWait)
  else if ¬ c.exited ∧ ¬ allKeysPresent c.recvVars keys then none
  else if ¬ allKeysPresent c.recvVars keys then
    some (Except.error errProcessExited)
  else some (Except.ok (satisfiedVars c.recvVars keys))

/-- Embedding of Cmd.signal.  The parameter osErr is the result of
os.Process.Signal when it is reached: none for success, some e for an
error with message e. -/
def signal (c : Cmd) (osErr : Option String) : Except String Unit :=
  if ¬ c.started then Except.error errDidNotCallStart
  else if c.calledWait then Except.error errAlreadyCalledWait
  else if ¬ isRunning c then Except.ok ()
  else
    match osErr with
    | none => Except.ok ()
    | some e => if e = errFinished then Except.ok () else Except.error e

/-- A default Cmd in its initial configuring state, as produced by
newCmdInternal for a concrete path. -/
def cmd0 : Cmd :=
  { path := "/bin/true"
    vars := emptySmap
    args := ["/bin/true"]
    ignoreParentExit := false
    exitAfter := 0
    propagateOutput := false
    outputDir := ""
    exitErrorIsOk := false
    stdin := ""
    stdinWriteCloser := none
    calledStart := false
    calledWait := false
    started := false
    exited := false
    stdoutWriters := []
    stderrWriters := []
    closers := []
    recvReady := false
    recvVars := emptySmap }

/-- A shell that has not begun mass cleanup. -/
def sh0 : Shell := { calledCleanup := false }

section CloseLemmas

/-- Close calls of the helper never mention an identity already seen. -/
theorem countOcc_closeClosersAux_of_mem (x : WriterId) :
    ∀ (l seen : List WriterId), x ∈ seen →
      countOcc x (closeClosersAux seen l) = 0 := by
  intro l
  induction l with
  | nil => intro seen _; simp [closeClosersAux, countOcc]
  | cons w rest ih =>
    intro seen hx
    by_cases hw : w ∈ seen
    · simpa [closeClosersAux, hw] using ih seen hx
    · have hne : w ≠ x := fun h => hw (h ▸ hx)
      simp [closeClosersAux, hw, countOcc, hne]
      exact ih (w :: seen) (List.mem_cons_of_mem w hx)

/-- Close calls of the helper never mention an identity outside the
closer list. -/
theorem countOcc_closeClosersAux_of_not_mem (x : WriterId) :
    ∀ (l seen : List WriterId), x ∉ l →
      countOcc x (closeClosersAux seen l) = 0 := by
  intro l
  induction l with
  | nil => intro seen _; simp [closeClosersAux, countOcc]
  | cons w rest ih =>
    intro seen hx
    have hne : w ≠ x := fun h => hx (h ▸ List.mem_cons_self w rest)
    have hxr : x ∉ rest := fun h => hx (List.mem_cons_of_mem w h)
    by_cases hw : w ∈ seen
    · simpa [closeClosersAux, hw] using ih seen hxr
    · simp [closeClosersAux, hw, countOcc, hne]
      exact ih (w :: seen) hxr

/-- An identity in the closer list but not yet seen is closed exactly
once. -/
theorem countOcc_closeClosersAux_of_mem_not_seen (x : WriterId) :
    ∀ (l seen : List WriterId), x ∉ seen → x ∈ l →
      countOcc x (closeClosersAux seen l) = 1 := by
  intro l
  induction l with
  | nil => intro seen _ hx; cases hx
  | cons w rest ih =>
    intro seen hseen hx
    by_cases hw : w ∈ seen
    · have hne : x ≠ w := fun h => hseen (h ▸ hw)
      have hxr : x ∈ rest := by
        cases List.mem_cons.mp hx with
        | inl h => exact absurd h hne
        | inr h => exact h
      simpa [closeClosersAux, hw] using ih seen hseen hxr
    · by_cases hxw : w = x
      · subst hxw
        have : countOcc w (closeClosersAux (w :: seen) rest) = 0 :=
          countOcc_closeClosersAux_of_mem w rest (w :: seen)
            (List.mem_cons_self w seen)
        simp [closeClosersAux, hw, countOcc, this]
      · have hxr : x ∈ rest := by
          cases List.mem_cons.mp hx with
          | inl h => exact absurd h.symm hxw
          | inr h => exact h
        have hns : x ∉ w :: seen := by
          intro h
          cases List.mem_cons.mp h with
          | inl h2 => exact hxw h2.symm
          | inr h2 => exact hseen h2
        simp [closeClosersAux, hw, countOcc, hxw]
        exact ih (w :: seen) hns hxr

end CloseLemmas

/-- C8: for every handle whose resource registry contains the same
closable sink registered more than once, the release step after process
exit calls Close exactly once per distinct sink identity: every
registered identity is closed exactly once, and no unregistered identity
is ever closed. -/
theorem C8_close_once (closers : List WriterId) (x : WriterId) :
    (x ∈ closers → countOcc x (closeClosers closers) = 1) ∧
    (x ∉ closers → countOcc x (closeClosers closers) = 0) := by
  constructor
  · intro hx
    exact countOcc_closeClosersAux_of_mem_not_seen x closers []
      (List.not_mem_nil x) hx
  · intro hx
    exact countOcc_closeClosersAux_of_not_mem x closers [] hx

/-- C8 witness: the registry of a handle whose stdout sink list and
stderr sink list both registered the same caller-supplied sink closes it
exactly once. -/
theorem C8_close_once_witness :
    countOcc (WriterId.user 5)
      (closeClosers [WriterId.user 5, WriterId.user 5]) = 1 :=
  (C8_close_once [WriterId.user 5, WriterId.user 5] (WriterId.user 5)).1
    (by decide)

/-- C7: a second call to start returns the already-started error, leaves
the handle state unchanged, and, when the first call launched the
process, makes no Close call on the registered resources. -/
theorem C7_start_twice (c : Cmd) (sh : Shell) (t : String)
    (oo oe : Bool) (se : Option String) (h : c.calledStart = true) :
    (start c sh t oo oe se).1 = Except.error errAlreadyCalledStart ∧
    (start c sh t oo oe se).2.1 = c ∧
    (c.started = true → (start c sh t oo oe se).2.2 = []) := by
  by_cases hs : c.started = true
  · refine ⟨?_, ?_, ?_⟩ <;> simp [start, startBody, h, hs]
  · have hs2 : c.started = false := by
      cases hb : c.started
      · rfl
      · exact absurd hb hs
    refine ⟨?_, ?_, ?_⟩ <;> simp [start, startBody, h, hs2]

/-- C7 witness: a concrete started handle, started again. -/
theorem C7_start_twice_witness :
    (start { cmd0 with calledStart := true, started := true } sh0 "t"
      true true none).1 = Except.error errAlreadyCalledStart :=
  (C7_start_twice { cmd0 with calledStart := true, started := true }
    sh0 "t" true true none rfl).1

/-- C3 counterexample: on a handle that was never started, signal does
not return success; it fails with the did-not-call-Start error. -/
theorem C3_signal_not_started_counterexample :
    signal cmd0 none = Except.error errDidNotCallStart ∧
    (Except.error errDidNotCallStart : Except String Unit) ≠
      Except.ok () := by
  constructor
  · rfl
  · intro h; cases h

/-- C3 amended: signal on a never-started handle fails with the
did-not-call-Start error; signal on a started handle on which wait was
already called fails with the already-called-Wait error; on a started
handle with wait not yet called whose process already exited it returns
success without attempting delivery; and when delivery is attempted,
the process-already-finished race is treated as success. -/
theorem C3_signal_amended :
    (∀ (c : Cmd) (osErr : Option String), c.started = false →
      signal c osErr = Except.error errDidNotCallStart) ∧
    (∀ (c : Cmd) (osErr : Option String), c.started = true →
      c.calledWait = true →
      signal c osErr = Except.error errAlreadyCalledWait) ∧
    (∀ (c : Cmd) (osErr : Option String), c.started = true →
      c.calledWait = false → c.exited = true →
      signal c osErr = Except.ok ()) ∧
    (∀ (c : Cmd), c.started = true → c.calledWait = false →
      c.exited = false →
      signal c (some errFinished) = Except.ok ()) := by
  refine ⟨?_, ?_, ?_, ?_⟩
  · intro c osErr h
    simp [signal, h]
  · intro c osErr h hw
    simp [signal, h, hw]
  · intro c osErr h hw he
    simp [signal, isRunning, h, hw, he]
  · intro c h hw he
    simp [signal, isRunning, h, hw, he, errFinished]

/-- A concrete handle that was started and waited for after its process
exited. -/
def cWaited : Cmd :=
  { cmd0 with calledStart := true, started := true,
              calledWait := true, exited := true }

/-- A concrete handle that was started and whose process exited. -/
def cStartedExited : Cmd :=
  { cmd0 with calledStart := true, started := true, exited := true }

/-- A concrete handle that was started and is still running. -/
def cStarted : Cmd :=
  { cmd0 with calledStart := true, started := true }

/-- C3 amended witness: a started, exited handle before wait and a
finished-process race both yield success, while a handle already waited
for fails with the already-called-Wait error. -/
theorem C3_signal_amended_witness :
    signal cStartedExited (some "boom") = Except.ok () ∧
    signal cStarted (some errFinished) = Except.ok () ∧
    signal cWaited none = Except.error errAlreadyCalledWait :=
  ⟨C3_signal_amended.2.2.1 cStartedExited (some "boom") rfl rfl rfl,
   C3_signal_amended.2.2.2 cStarted rfl rfl rfl,
   C3_signal_amended.2.1 cWaited none rfl rfl⟩

/-- C2 counterexample: clone copies the literal stdin string (line 418
of cmd.go assigns res.Stdin = c.Stdin), so the clone of a handle with
stdin text "hello" has stdin text "hello", not the empty string. -/
theorem C2_clone_stdin_counterexample :
    Except.map (fun r => r.stdin)
      (clone { cmd0 with stdin := "hello" } sh0) = Except.ok "hello" ∧
    "hello" ≠ "" := by
  exact ⟨rfl, by decide⟩

/-- C2 amended: for a handle in the configuring state (under a shell
that has not begun cleanup, and with the invariant that argument zero is
the resolved path), clone produces a fresh configuring handle whose
path, argument list, environment mapping, scalar configuration flags
and stdin text equal the originals, and whose attached sinks, registered
closers and stdin pipe are not copied (all empty). -/
theorem C2_clone_amended (c : Cmd) (sh : Shell)
    (h : sh.calledCleanup = false) (h2 : c.args.head? = some c.path) :
    clone c sh = Except.ok
      { path := c.path
        vars := c.vars
        args := c.args
        ignoreParentExit := c.ignoreParentExit
        exitAfter := c.exitAfter
        propagateOutput := c.propagateOutput
        outputDir := c.outputDir
        exitErrorIsOk := c.exitErrorIsOk
        stdin := c.stdin
        stdinWriteCloser := none
        calledStart := false
        calledWait := false
        started := false
        exited := false
        stdoutWriters := []
        stderrWriters := []
        closers := []
        recvReady := false
        recvVars := emptySmap } := by
  have hargs : c.path :: c.args.tail = c.args := by
    cases ha : c.args with
    | nil => rw [ha] at h2; cases h2
    | cons a rest =>
      rw [ha] at h2
      simp at h2
      simp [h2]
  simp [clone, newCmdInternal, copyMap, h, hargs]

/-- C2 amended witness: cloning a concrete configured handle. -/
theorem C2_clone_amended_witness :
    clone { cmd0 with stdin := "hello", exitErrorIsOk := true } sh0 =
      Except.ok { cmd0 with stdin := "hello", exitErrorIsOk := true } := by
  have := C2_clone_amended
    { cmd0 with stdin := "hello", exitErrorIsOk := true } sh0 rfl rfl
  simpa [cmd0] using this

/-- A concrete handle where the ready message and process exit have both
been observed, and the variable a was received before exit. -/
def cRaceBoth : Cmd :=
  { cmd0 with calledStart := true, started := true, exited := true,
              recvReady := true, recvVars := listMap [("a", "1")] }

/-- C1 counterexample: on a handle where both the ready flag and the
exited flag are set when awaitReady evaluates its condition, awaitReady
returns success, not the process-exited condition (the code comment says
it returns a nil error when both conditions triggered simultaneously);
likewise awaitVars returns the satisfied keys, not the exited condition,
when exit and key satisfaction coincide. -/
theorem C1_exit_wins_counterexample :
    awaitReady cRaceBoth = some (Except.ok ()) ∧
    awaitReady cRaceBoth ≠ some (Except.error errProcessExited) ∧
    awaitVars cRaceBoth ["a"] =
      some (Except.ok (satisfiedVars cRaceBoth.recvVars ["a"])) ∧
    awaitVars cRaceBoth ["a"] ≠
      some (Except.error errProcessExited) := by
  refine ⟨rfl, ?_, rfl, ?_⟩
  · intro h
    rw [show awaitReady cRaceBoth = some (Except.ok ()) from rfl] at h
    cases h
  · intro h
    rw [show awaitVars cRaceBoth ["a"] =
      some (Except.ok (satisfiedVars cRaceBoth.recvVars ["a"])) from rfl] at h
    cases h

/-- C1 amended: readiness wins the race, not exit.  On a started handle
with wait not yet called: if the ready flag is set when awaitReady
evaluates its condition, it returns success even if the exited flag is
also set; the process-exited condition is returned exactly when the
process exited without the ready flag being set.  The same rule holds
for awaitVars with respect to satisfaction of all requested keys. -/
theorem C1_race_amended :
    (∀ c : Cmd, c.started = true → c.calledWait = false →
      c.recvReady = true → awaitReady c = some (Except.ok ())) ∧
    (∀ c : Cmd, c.started = true → c.calledWait = false →
      c.exited = true → c.recvReady = false →
      awaitReady c = some (Except.error errProcessExited)) ∧
    (∀ (c : Cmd) (keys : List String), c.started = true →
      c.calledWait = false → allKeysPresent c.recvVars keys = true →
      awaitVars c keys =
        some (Except.ok (satisfiedVars c.recvVars keys))) ∧
    (∀ (c : Cmd) (keys : List String), c.started = true →
      c.calledWait = false → c.exited = true →
      allKeysPresent c.recvVars keys = false →
      awaitVars c keys = some (Except.error errProcessExited)) := by
  refine ⟨?_, ?_, ?_, ?_⟩
  · intro c h hw hr
    simp [awaitReady, h, hw, hr]
  · intro c h hw he hr
    simp [awaitReady, h, hw, he, hr]
  · intro c keys h hw hk
    simp [awaitVars, h, hw, hk]
  · intro c keys h hw he hk
    simp [awaitVars, h, hw, he, hk]

/-- C1 amended witness: on the concrete handle where both conditions
coincide, both accessors succeed; on a started handle that exited
without a ready message, awaitReady reports the exited condition. -/
theorem C1_race_amended_witness :
    awaitReady cRaceBoth = some (Except.ok ()) ∧
    awaitVars cRaceBoth ["a"] =
      some (Except.ok (satisfiedVars cRaceBoth.recvVars ["a"])) ∧
    awaitReady cStartedExited = some (Except.error errProcessExited) :=
  ⟨C1_race_amended.1 cRaceBoth rfl rfl rfl,
   C1_race_amended.2.2.1 cRaceBoth ["a"] rfl rfl rfl,
   C1_race_amended.2.1 cStartedExited rfl rfl rfl rfl⟩

/-- C9: a successful awaitVars returns a mapping whose keys are exactly
the requested keys: every requested key is mapped to its most recently
received value (its value in the accumulated recvVars map) and is
present, and every key that was not requested is absent, even when the
shared recvVars map contains it. -/
theorem C9_awaitVars_exact_keys (c : Cmd) (keys : List String)
    (m : Smap) (h : awaitVars c keys = some (Except.ok m)) :
    (∀ k, k ∈ keys → m k = c.recvVars k ∧ (m k).isSome = true) ∧
    (∀ k, k ∉ keys → m k = none) := by
  have hm : m = satisfiedVars c.recvVars keys ∧
      allKeysPresent c.recvVars keys = true := by
    by_cases hs : c.started = true
    · by_cases hw : c.calledWait = true
      · simp [awaitVars, hs, hw] at h
      · by_cases hk : allKeysPresent c.recvVars keys = true
        · simp [awaitVars, hs, hw, hk] at h
          exact ⟨h.symm, hk⟩
        · by_cases he : c.exited = true
          · simp [awaitVars, hs, hw, hk, he] at h
          · simp [awaitVars, hs, hw, hk, he] at h
    · simp [awaitVars, hs] at h
  rcases hm with ⟨hm, hk⟩
  subst hm
  constructor
  · intro k hkk
    have hpres : (c.recvVars k).isSome = true := by
      have := List.all_eq_true.mp hk k hkk
      simpa using this
    constructor
    · simp [satisfiedVars, hkk]
    · simp [satisfiedVars, hkk, hpres]
  · intro k hkk
    simp [satisfiedVars, hkk]

/-- C9 witness: on a handle holding variables a and b, awaiting only a
yields a mapping with the most recent value at a and nothing at b. -/
theorem C9_awaitVars_exact_keys_witness :
    (satisfiedVars (listMap [("a", "1")]) ["a"]) "a" =
        (listMap [("a", "1")]) "a" ∧
    (satisfiedVars (listMap [("a", "1")]) ["a"]) "b" = none :=
  ⟨((C9_awaitVars_exact_keys cRaceBoth ["a"] _ rfl).1 "a"
      (by decide)).1,
   (C9_awaitVars_exact_keys cRaceBoth ["a"] _ rfl).2 "b" (by decide)⟩

/-- A concrete configuring handle whose literal stdin string is already
set. -/
def cStdinSet : Cmd := { cmd0 with stdin := "x" }

/-- C4 counterexample: on a handle whose literal stdin string is already
set, the stdin pipe accessor succeeds and creates the pipe; the
conflicting-stdin error is not raised at the moment of the conflicting
request. -/
theorem C4_stdin_conflict_counterexample :
    stdinPipe cStdinSet 7 =
      Except.ok (7, { cStdinSet with stdinWriteCloser := some 7 }) ∧
    stdinPipe cStdinSet 7 ≠ Except.error errConflictingStdin := by
  refine ⟨rfl, ?_⟩
  intro h
  rw [show stdinPipe cStdinSet 7 =
    Except.ok (7, { cStdinSet with stdinWriteCloser := some 7 })
    from rfl] at h
  cases h

/-- C4 amended: the conflict between the literal stdin string and the
stdin pipe is detected at start, which fails with the conflicting-stdin
error whenever both are configured, so at most one of the two stdin
mechanisms is ever effective on a started handle; the stdin pipe
accessor itself is idempotent, returning the same pipe on repeated
pre-start calls. -/
theorem C4_stdin_amended :
    (∀ (c : Cmd) (sh : Shell) (t : String) (oo oe : Bool)
      (se : Option String), c.calledStart = false →
      sh.calledCleanup = false → c.stdin ≠ "" →
      c.stdinWriteCloser.isSome = true →
      (start c sh t oo oe se).1 = Except.error errConflictingStdin) ∧
    (∀ (c : Cmd) (sh : Shell) (t : String) (oo oe : Bool)
      (se : Option String), (start c sh t oo oe se).1 = Except.ok () →
      ¬ (c.stdin ≠ "" ∧ c.stdinWriteCloser.isSome = true)) ∧
    (∀ (c : Cmd) (f g : Nat), c.calledStart = false →
      ∃ (w : Nat) (c2 : Cmd), stdinPipe c f = Except.ok (w, c2) ∧
        stdinPipe c2 g = Except.ok (w, c2)) := by
  have conflict : ∀ (c : Cmd) (sh : Shell) (t : String) (oo oe : Bool)
      (se : Option String), c.calledStart = false →
      sh.calledCleanup = false → c.stdin ≠ "" →
      c.stdinWriteCloser.isSome = true →
      (start c sh t oo oe se).1 = Except.error errConflictingStdin := by
    intro c sh t oo oe se h hsh hs hp
    simp [start, startBody, h, hsh, hs, hp]
    split <;> rfl
  refine ⟨conflict, ?_, ?_⟩
  · intro c sh t oo oe se hok hboth
    by_cases h : c.calledStart = false
    · by_cases hsh : sh.calledCleanup = false
      · rw [conflict c sh t oo oe se h hsh hboth.1 hboth.2] at hok
        cases hok
      · have hsh2 : sh.calledCleanup = true := by
          cases hb : sh.calledCleanup
          · exact absurd hb hsh
          · rfl
        simp [start, startBody, h, hsh2] at hok
        split at hok <;> simp at hok
    · have h2 : c.calledStart = true := by
        cases hb : c.calledStart
        · exact absurd hb h
        · rfl
      simp [start, startBody, h2] at hok
      split at hok <;> simp at hok
  · intro c f g h
    cases hw : c.stdinWriteCloser with
    | some w =>
      refine ⟨w, c, ?_, ?_⟩ <;> simp [stdinPipe, h, hw]
    | none =>
      refine ⟨f, { c with stdinWriteCloser := some f }, ?_, ?_⟩ <;>
        simp [stdinPipe, h, hw]

/-- C4 amended witness: start fails with the conflicting-stdin error on
a handle configured with both mechanisms, and two pre-start pipe
accessor calls on a fresh handle return the same pipe. -/
theorem C4_stdin_amended_witness :
    (start { cmd0 with stdin := "x", stdinWriteCloser := some 3 } sh0
      "t" true true none).1 = Except.error errConflictingStdin ∧
    stdinPipe cmd0 4 =
      Except.ok (4, { cmd0 with stdinWriteCloser := some 4 }) ∧
    stdinPipe { cmd0 with stdinWriteCloser := some 4 } 9 =
      Except.ok (4, { cmd0 with stdinWriteCloser := some 4 }) :=
  ⟨C4_stdin_amended.1 { cmd0 with stdin := "x", stdinWriteCloser := some 3 }
      sh0 "t" true true none rfl rfl (by decide) rfl,
   rfl, rfl⟩

/-- Shape of the final switch of makeStdoutStderr when the stdout writer
list is nonempty: the stderr-only shape is impossible, and the shared
lock appears exactly when the stderr writer list is nonempty. -/
theorem outSwitch_spec (c : Cmd) (h : c.stdoutWriters ≠ []) :
    (∀ l, outSwitch c ≠ OutWriters.errOnly l) ∧
    ((∃ o e, outSwitch c = OutWriters.locked o e) ↔
      c.stderrWriters ≠ []) := by
  by_cases he : c.stderrWriters = []
  · have hsw : outSwitch c = OutWriters.outOnly c.stdoutWriters := by
      simp [outSwitch, h, he]
    constructor
    · intro l hl
      rw [hsw] at hl
      cases hl
    · rw [hsw]
      constructor
      · rintro ⟨o, e, hoe⟩
        cases hoe
      · intro hne
        exact absurd he hne
  · have hsw : outSwitch c =
        OutWriters.locked c.stdoutWriters c.stderrWriters := by
      simp [outSwitch, h, he]
    constructor
    · intro l hl
      rw [hsw] at hl
      cases hl
    · rw [hsw]
      constructor
      · intro _
        exact he
      · intro _
        exact ⟨c.stdoutWriters, c.stderrWriters, rfl⟩

/-- Result shape of a successful makeStdoutStderr: the returned writers
are the final switch over the mutated Cmd, whose stdout writer list is
nonempty because the decoder was appended unconditionally. -/
theorem makeStdoutStderr_ok (c : Cmd) (t : String) (oo oe : Bool)
    (w : OutWriters) (c2 : Cmd)
    (h : makeStdoutStderr c t oo oe = (Except.ok w, c2)) :
    w = outSwitch c2 ∧ c2.stdoutWriters ≠ [] := by
  by_cases hp : c.propagateOutput = true <;>
    by_cases hd : c.outputDir = "" <;>
      cases oo <;> cases oe <;>
        simp [makeStdoutStderr, hp, hd] at h <;>
          rcases h with ⟨hw, hc2⟩ <;>
            subst hc2 <;> simp [hw]

/-- C10: whenever makeStdoutStderr reaches its final switch (returns
without a file-open error), the stdout sink list is nonempty because the
control-message decoder was unconditionally appended to it; consequently
the stderr-only shape of the result is unreachable, and the single
shared cross-stream lock is introduced exactly when at least one stderr
sink is registered. -/
theorem C10_decoder_always_stdout_sink (c : Cmd) (t : String)
    (oo oe : Bool) (w : OutWriters) (c2 : Cmd)
    (h : makeStdoutStderr c t oo oe = (Except.ok w, c2)) :
    c2.stdoutWriters ≠ [] ∧
    (∀ l, w ≠ OutWriters.errOnly l) ∧
    ((∃ o e, w = OutWriters.locked o e) ↔ c2.stderrWriters ≠ []) := by
  rcases makeStdoutStderr_ok c t oo oe w c2 h with ⟨hw, hne⟩
  subst hw
  exact ⟨hne, (outSwitch_spec c2 hne).1, (outSwitch_spec c2 hne).2⟩

/-- C10 witness: assembling the writers of a default handle with one
caller stderr sink yields the locked shape, and on a handle without
stderr sinks the stdout-only shape, never the stderr-only shape. -/
theorem C10_decoder_always_stdout_sink_witness :
    ({ cmd0 with stdoutWriters := [WriterId.recvW] } : Cmd).stdoutWriters
      ≠ [] ∧
    (∃ o e, (OutWriters.locked [WriterId.recvW] [WriterId.user 2] :
      OutWriters) = OutWriters.locked o e) :=
  ⟨(C10_decoder_always_stdout_sink cmd0 "t" true true
      (OutWriters.outOnly [WriterId.recvW])
      { cmd0 with stdoutWriters := [WriterId.recvW] } rfl).1,
   (C10_decoder_always_stdout_sink
      { cmd0 with stderrWriters := [WriterId.user 2] } "t" true true
      (OutWriters.locked [WriterId.recvW] [WriterId.user 2])
      { cmd0 with stdoutWriters := [WriterId.recvW],
                  stderrWriters := [WriterId.user 2] } rfl).2.2.mpr
      (by decide)⟩


section DecoderLemmas

variable (parse : List Nat → Except String Msg)

/-- Length of the fixed control-line marker. -/
theorem msgMark_length : msgMark.length = 3 := rfl

/-- Processing a concatenation of byte strings is processing the first,
then the second from the reached state. -/
theorem recvWrite_append (p q : List Nat) : ∀ s : RecvState,
    recvWrite parse s (p ++ q) =
      match recvWrite parse s p with
      | Except.error e => Except.error e
      | Except.ok s2 => recvWrite parse s2 q := by
  induction p with
  | nil => intro s; simp [recvWrite]
  | cons b rest ih =>
    intro s
    simp only [List.cons_append, recvWrite]
    cases writeByte parse s b with
    | error e => simp
    | ok s2 => simp [ih s2]

/-- Successful-first-part form of the concatenation lemma. -/
theorem recvWrite_append_ok (p q : List Nat) (s s1 : RecvState)
    (h : recvWrite parse s p = Except.ok s1) :
    recvWrite parse s (p ++ q) = recvWrite parse s1 q := by
  rw [recvWrite_append parse p q s, h]

/-- While the decoder is skipping the rest of a line, bytes other than
the newline leave its state unchanged. -/
theorem recvWrite_skip : ∀ (p : List Nat) (s : RecvState),
    s.skipLine = true → (∀ b ∈ p, b ≠ 10) →
    recvWrite parse s p = Except.ok s := by
  intro p
  induction p with
  | nil => intro s _ _; rfl
  | cons b rest ih =>
    intro s hs hb
    have hbn : b ≠ 10 := hb b (List.mem_cons_self b rest)
    have hw : writeByte parse s b = Except.ok s := by
      simp [writeByte, hbn, hs]
    simp only [recvWrite, hw]
    exact ih s hs (fun x hx => hb x (List.mem_cons_of_mem b hx))

/-- After the marker was recognized, bytes other than the newline are
accumulated into the buffer. -/
theorem recvWrite_afterMark : ∀ (p : List Nat) (s : RecvState),
    s.readMark = true → s.skipLine = false → (∀ b ∈ p, b ≠ 10) →
    recvWrite parse s p = Except.ok { s with buf := s.buf ++ p } := by
  intro p
  induction p with
  | nil => intro s _ _ _; simp [recvWrite]
  | cons b rest ih =>
    intro s hm hs hb
    have hbn : b ≠ 10 := hb b (List.mem_cons_self b rest)
    have hw : writeByte parse s b =
        Except.ok { s with buf := s.buf ++ [b] } := by
      simp [writeByte, hbn, hs, hm]
    simp only [recvWrite, hw]
    have := ih { s with buf := s.buf ++ [b] } hm hs
      (fun x hx => hb x (List.mem_cons_of_mem b hx))
    simpa using this

/-- Before the marker-length position of a line, bytes other than the
newline are accumulated into the buffer. -/
theorem recvWrite_short : ∀ (p : List Nat) (s : RecvState),
    s.readMark = false → s.skipLine = false → (∀ b ∈ p, b ≠ 10) →
    s.buf.length + p.length < 3 →
    recvWrite parse s p = Except.ok { s with buf := s.buf ++ p } := by
  intro p
  induction p with
  | nil => intro s _ _ _ _; simp [recvWrite]
  | cons b rest ih =>
    intro s hm hs hb hlen
    have hbn : b ≠ 10 := hb b (List.mem_cons_self b rest)
    simp only [List.length_cons] at hlen
    have hlt : ¬ (s.buf.length + 1 = msgMark.length) := by
      rw [msgMark_length]
      omega
    have hw : writeByte parse s b =
        Except.ok { s with buf := s.buf ++ [b] } := by
      simp [writeByte, hbn, hs, hm, hlt]
    simp only [recvWrite, hw]
    have := ih { s with buf := s.buf ++ [b] } hm hs
      (fun x hx => hb x (List.mem_cons_of_mem b hx))
      (by simp only [List.length_append, List.length_cons,
            List.length_nil]
          omega)
    simpa using this

/-- Reaching the marker-length position of a line whose leading bytes do
not equal the marker moves the decoder into line-skipping mode. -/
theorem recvWrite_toSkip : ∀ (p : List Nat) (s : RecvState),
    s.readMark = false → s.skipLine = false → (∀ b ∈ p, b ≠ 10) →
    s.buf.length + p.length = 3 → p ≠ [] →
    s.buf ++ p ≠ msgMark →
    recvWrite parse s p =
      Except.ok { s with buf := [], readMark := true,
                         skipLine := true } := by
  intro p
  induction p with
  | nil => intro s _ _ _ _ hne _; exact absurd rfl hne
  | cons b rest ih =>
    intro s hm hs hb hlen _ hpre
    have hbn : b ≠ 10 := hb b (List.mem_cons_self b rest)
    simp only [List.length_cons] at hlen
    by_cases hr : rest = []
    · subst hr
      simp only [List.length_nil] at hlen
      have hleq : s.buf.length + 1 = msgMark.length := by
        rw [msgMark_length]
        omega
      have hne2 : ¬ (s.buf ++ [b] = msgMark) := by
        simpa using hpre
      have hw : writeByte parse s b =
          Except.ok { s with buf := [], readMark := true,
                             skipLine := true } := by
        simp [writeByte, hbn, hs, hm, hleq, hne2]
      simp [recvWrite, hw]
    · have hrl : 1 ≤ rest.length := by
        cases hc : rest with
        | nil => exact absurd hc hr
        | cons x xs => simp
      have hlt : ¬ (s.buf.length + 1 = msgMark.length) := by
        rw [msgMark_length]
        omega
      have hw : writeByte parse s b =
          Except.ok { s with buf := s.buf ++ [b] } := by
        simp [writeByte, hbn, hs, hm, hlt]
      simp only [recvWrite, hw]
      have hpre2 : (s.buf ++ [b]) ++ rest ≠ msgMark := by
        simpa [List.append_assoc] using hpre
      have := ih { s with buf := s.buf ++ [b] } hm hs
        (fun x hx => hb x (List.mem_cons_of_mem b hx))
        (by simp only [List.length_append, List.length_cons,
              List.length_nil]
            omega)
        hr hpre2
      simpa using this

/-- Processing the three marker bytes from the start of a line leaves an
empty buffer with the marker recognized. -/
theorem recvWrite_mark (r : Bool) (v : Smap) :
    recvWrite parse (freshRecv r v) msgMark =
      Except.ok { buf := [], readMark := true, skipLine := false,
                  recvReady := r, recvVars := v } := rfl

/-- Processing one complete control line from the start of a line: the
marker, a newline-free remainder and the newline.  The outcome is
determined by the parse of the remainder: an unmarshalling failure is
returned as the write error, a ready message sets the ready flag, a
variables message merges its payload into the accumulated variables, and
any other type tag is an unknown-type error. -/
theorem recvWrite_markerLine (r : Bool) (v : Smap) (rest : List Nat)
    (hb : ∀ b ∈ rest, b ≠ 10) :
    recvWrite parse (freshRecv r v) (msgMark ++ rest ++ [10]) =
      match parse rest with
      | Except.error e => Except.error e
      | Except.ok m =>
        if m.mtype = typeReady then Except.ok (freshRecv true v)
        else if m.mtype = typeVars then
          Except.ok (freshRecv r (mergeMaps v m.mvars))
        else Except.error (unknownTypeMsg m.mtype) := by
  have hmr : recvWrite parse (freshRecv r v) (msgMark ++ rest) =
      Except.ok { buf := rest, readMark := true, skipLine := false,
                  recvReady := r, recvVars := v } := by
    rw [recvWrite_append_ok parse msgMark rest _ _
      (recvWrite_mark parse r v)]
    have := recvWrite_afterMark parse rest
      { buf := [], readMark := true, skipLine := false,
        recvReady := r, recvVars := v } rfl rfl hb
    simpa using this
  rw [recvWrite_append_ok parse (msgMark ++ rest) [10] _ _ hmr]
  have hvr : ¬ (typeVars = typeReady) := by decide
  cases hm : parse rest with
  | error e => simp [recvWrite, writeByte, hm]
  | ok m =>
    by_cases h1 : m.mtype = typeReady
    · simp [recvWrite, writeByte, hm, h1, freshRecv]
    · by_cases h2 : m.mtype = typeVars
      · simp [recvWrite, writeByte, hm, h1, h2, freshRecv, hvr]
      · simp [recvWrite, writeByte, hm, h1, h2, freshRecv]

/-- Presence of a key survives a merge: merging never deletes. -/
theorem mergeMaps_isSome (base upd : Smap) (k : String)
    (h : (base k).isSome = true) :
    ((mergeMaps base upd) k).isSome = true := by
  unfold mergeMaps
  cases hu : upd k <;> simp [hu, h]

/-- One decoder step either keeps the accumulated variables or merges a
message payload into them. -/
theorem writeByte_recvVars (s : RecvState) (b : Nat) (s2 : RecvState)
    (h : writeByte parse s b = Except.ok s2) :
    s2.recvVars = s.recvVars ∨
      ∃ m, s2.recvVars = mergeMaps s.recvVars m := by
  simp only [writeByte] at h
  repeat' split at h
  all_goals first
    | (injection h with h2; subst h2; left; rfl)
    | (injection h with h2; subst h2; right; exact ⟨_, rfl⟩)
    | (injection h)

/-- Across any successful sequence of decoder writes, the set of keys in
the accumulated variables never shrinks. -/
theorem recvWrite_recvVars_mono : ∀ (p : List Nat) (s s2 : RecvState),
    recvWrite parse s p = Except.ok s2 → ∀ k,
    (s.recvVars k).isSome = true → (s2.recvVars k).isSome = true := by
  intro p
  induction p with
  | nil =>
    intro s s2 h k hk
    injection h with h2
    subst h2
    exact hk
  | cons b rest ih =>
    intro s s2 h k hk
    simp only [recvWrite] at h
    cases hw : writeByte parse s b with
    | error e => rw [hw] at h; cases h
    | ok s1 =>
      rw [hw] at h
      have hk1 : (s1.recvVars k).isSome = true := by
        cases writeByte_recvVars parse s b s1 hw with
        | inl he => rw [he]; exact hk
        | inr hm =>
          rcases hm with ⟨m, hm⟩
          rw [hm]
          exact mergeMaps_isSome s.recvVars m k hk
      exact ih s1 s2 h k hk1

/-- One complete line whose leading bytes do not equal the marker is
inert: it is consumed without error and without touching the ready flag
or the accumulated variables. -/
theorem recvWrite_inert (r : Bool) (v : Smap) (L : List Nat)
    (hb : ∀ b ∈ L, b ≠ 10) (hm : L.take msgMark.length ≠ msgMark) :
    recvWrite parse (freshRecv r v) (L ++ [10]) =
      Except.ok (freshRecv r v) := by
  by_cases hlen : L.length < 3
  · have h1 : recvWrite parse (freshRecv r v) L =
        Except.ok { buf := L, readMark := false, skipLine := false,
                    recvReady := r, recvVars := v } := by
      have := recvWrite_short parse L (freshRecv r v) rfl rfl hb
        (by simpa [freshRecv] using hlen)
      simpa [freshRecv] using this
    rw [recvWrite_append_ok parse L [10] _ _ h1]
    simp [recvWrite, writeByte, freshRecv]
  · have hlen2 : 3 ≤ L.length := le_of_not_lt hlen
    have htk : (L.take msgMark.length).length = 3 := by
      rw [List.length_take, msgMark_length]
      omega
    have hne : L.take msgMark.length ≠ [] := by
      intro h
      rw [h] at htk
      cases htk
    have h2 : recvWrite parse (freshRecv r v) (L.take msgMark.length) =
        Except.ok { buf := [], readMark := true, skipLine := true,
                    recvReady := r, recvVars := v } := by
      have := recvWrite_toSkip parse (L.take msgMark.length)
        (freshRecv r v) rfl rfl
        (fun x hx => hb x (List.mem_of_mem_take hx))
        (by simpa [freshRecv] using htk)
        hne
        (by simpa [freshRecv] using hm)
      simpa [freshRecv] using this
    have h3 : recvWrite parse (freshRecv r v) L =
        Except.ok { buf := [], readMark := true, skipLine := true,
                    recvReady := r, recvVars := v } := by
      conv_lhs => rw [← List.take_append_drop msgMark.length L]
      rw [recvWrite_append_ok parse (L.take msgMark.length)
        (L.drop msgMark.length) _ _ h2]
      exact recvWrite_skip parse (L.drop msgMark.length)
        { buf := [], readMark := true, skipLine := true,
          recvReady := r, recvVars := v } rfl
        (fun x hx => hb x (List.mem_of_mem_drop hx))
    rw [recvWrite_append_ok parse L [10] _ _ h3]
    simp [recvWrite, writeByte, freshRecv]

end DecoderLemmas

/-- C5: variable merging is key-overwriting and never deletes.  First,
for any two complete variables control lines, processing both merges the
second payload over the first into the accumulated variables.  Second,
concretely, receiving the payload with a mapped to 1 and then the
payload with a mapped to 2 and b mapped to 3 yields exactly the mapping
with a mapped to 2 and b mapped to 3 at every key.  Third, across every
successful decoder write the set of keys of the accumulated variables
never shrinks. -/
theorem C5_vars_merge :
    (∀ (parse : List Nat → Except String Msg) (r : Bool) (v : Smap)
      (rest1 rest2 : List Nat) (m1 m2 : Smap),
      (∀ b ∈ rest1, b ≠ 10) → (∀ b ∈ rest2, b ≠ 10) →
      parse rest1 = Except.ok { mtype := typeVars, mvars := m1 } →
      parse rest2 = Except.ok { mtype := typeVars, mvars := m2 } →
      recvWrite parse (freshRecv r v)
        ((msgMark ++ rest1 ++ [10]) ++ (msgMark ++ rest2 ++ [10])) =
        Except.ok (freshRecv r (mergeMaps (mergeMaps v m1) m2))) ∧
    (∀ k, mergeMaps (mergeMaps emptySmap (listMap [("a", "1")]))
        (listMap [("a", "2"), ("b", "3")]) k =
      listMap [("a", "2"), ("b", "3")] k) ∧
    (∀ (parse : List Nat → Except String Msg) (p : List Nat)
      (s s2 : RecvState), recvWrite parse s p = Except.ok s2 →
      ∀ k, (s.recvVars k).isSome = true →
        (s2.recvVars k).isSome = true) := by
  have hvr : ¬ (typeVars = typeReady) := by decide
  refine ⟨?_, ?_, ?_⟩
  · intro parse r v rest1 rest2 m1 m2 hb1 hb2 hp1 hp2
    have l1 := recvWrite_markerLine parse r v rest1 hb1
    rw [hp1] at l1
    simp only [hvr, if_false, if_true, ite_true, ite_false] at l1
    have l1ok : recvWrite parse (freshRecv r v)
        (msgMark ++ rest1 ++ [10]) =
        Except.ok (freshRecv r (mergeMaps v m1)) := by
      simpa [hvr] using l1
    rw [recvWrite_append_ok parse (msgMark ++ rest1 ++ [10])
      (msgMark ++ rest2 ++ [10]) _ _ l1ok]
    have l2 := recvWrite_markerLine parse r (mergeMaps v m1) rest2 hb2
    rw [hp2] at l2
    simpa [hvr] using l2
  · intro k
    by_cases hka : k = "a"
    · subst hka; rfl
    · by_cases hkb : k = "b"
      · subst hkb; rfl
      · have hba : (k == "a") = false := beq_eq_false_iff_ne.mpr hka
        have hbb : (k == "b") = false := beq_eq_false_iff_ne.mpr hkb
        have e2 : listMap [("a", "2"), ("b", "3")] k = none := by
          simp [listMap, List.lookup, hba, hbb]
        have e1 : listMap [("a", "1")] k = none := by
          simp [listMap, List.lookup, hba]
        simp [mergeMaps, e1, e2, emptySmap]
  · intro parse p s s2 h k hk
    exact recvWrite_recvVars_mono parse p s s2 h k hk

/-- A concrete stand-in for json.Unmarshal used by the decoder
witnesses: byte 118 decodes to the variables message with a mapped to 1,
byte 119 to the variables message with a mapped to 2 and b mapped to 3,
byte 114 to a message with an unrecognized type tag, and anything else
is an unmarshalling error. -/
def parseW : List Nat → Except String Msg := fun l =>
  if l = [118] then
    Except.ok { mtype := typeVars, mvars := listMap [("a", "1")] }
  else if l = [119] then
    Except.ok { mtype := typeVars,
                mvars := listMap [("a", "2"), ("b", "3")] }
  else if l = [114] then
    Except.ok { mtype := "bogus", mvars := emptySmap }
  else Except.error "invalid json"

/-- C5 witness: the two concrete variables lines from the claim, fed
through the decoder, leave exactly the overwritten merge, whose value at
key a is the latest one. -/
theorem C5_vars_merge_witness :
    recvWrite parseW (freshRecv false emptySmap)
      ((msgMark ++ [118] ++ [10]) ++ (msgMark ++ [119] ++ [10])) =
      Except.ok (freshRecv false
        (mergeMaps (mergeMaps emptySmap (listMap [("a", "1")]))
          (listMap [("a", "2"), ("b", "3")]))) ∧
    mergeMaps (mergeMaps emptySmap (listMap [("a", "1")]))
        (listMap [("a", "2"), ("b", "3")]) "a" =
      listMap [("a", "2"), ("b", "3")] "a" :=
  ⟨C5_vars_merge.1 parseW false emptySmap [118] [119]
      (listMap [("a", "1")]) (listMap [("a", "2"), ("b", "3")])
      (by decide) (by decide) rfl rfl,
   C5_vars_merge.2.1 "a"⟩

/-- C6: a complete line whose leading bytes equal the marker but whose
remainder fails to unmarshal causes the write to return that error; a
marker line whose message has an unrecognized type tag causes the write
to return the unknown-type error; and a complete line whose leading
bytes do not equal the marker is inert: the write succeeds and neither
the ready flag nor the accumulated variables change. -/
theorem C6_control_line :
    (∀ (parse : List Nat → Except String Msg) (r : Bool) (v : Smap)
      (rest : List Nat) (e : String), (∀ b ∈ rest, b ≠ 10) →
      parse rest = Except.error e →
      recvWrite parse (freshRecv r v) (msgMark ++ rest ++ [10]) =
        Except.error e) ∧
    (∀ (parse : List Nat → Except String Msg) (r : Bool) (v : Smap)
      (rest : List Nat) (m : Msg), (∀ b ∈ rest, b ≠ 10) →
      parse rest = Except.ok m → m.mtype ≠ typeReady →
      m.mtype ≠ typeVars →
      recvWrite parse (freshRecv r v) (msgMark ++ rest ++ [10]) =
        Except.error (unknownTypeMsg m.mtype)) ∧
    (∀ (parse : List Nat → Except String Msg) (r : Bool) (v : Smap)
      (L : List Nat), (∀ b ∈ L, b ≠ 10) →
      L.take msgMark.length ≠ msgMark →
      recvWrite parse (freshRecv r v) (L ++ [10]) =
        Except.ok (freshRecv r v)) := by
  refine ⟨?_, ?_, ?_⟩
  · intro parse r v rest e hb hp
    have l1 := recvWrite_markerLine parse r v rest hb
    rw [hp] at l1
    simpa using l1
  · intro parse r v rest m hb hp h1 h2
    have l1 := recvWrite_markerLine parse r v rest hb
    rw [hp] at l1
    simpa [h1, h2] using l1
  · intro parse r v L hb hm
    exact recvWrite_inert parse r v L hb hm

/-- C6 witness: a marker line with an unparseable remainder fails with
the unmarshalling error, a marker line with an unrecognized type tag
fails with the unknown-type error, and a line that does not begin with
the marker is consumed without error and without state change. -/
theorem C6_control_line_witness :
    recvWrite parseW (freshRecv false emptySmap)
      (msgMark ++ [120] ++ [10]) = Except.error "invalid json" ∧
    recvWrite parseW (freshRecv false emptySmap)
      (msgMark ++ [114] ++ [10]) =
      Except.error (unknownTypeMsg "bogus") ∧
    recvWrite parseW (freshRecv false emptySmap) ([104, 105] ++ [10]) =
      Except.ok (freshRecv false emptySmap) :=
  ⟨C6_control_line.1 parseW false emptySmap [120] "invalid json"
      (by decide) rfl,
   C6_control_line.2.1 parseW false emptySmap [114]
      { mtype := "bogus", mvars := emptySmap }
      (by decide) rfl (by decide) (by decide),
   C6_control_line.2.2 parseW false emptySmap [104, 105]
      (by decide) (by decide)⟩

end Gosh
